import Mathlib

/-!
A shallow embedding, in Lean 4, of the CPU-topology / scheduler-control core
of the `hexin` repository (Rust), together with theorems checking the
natural-language specification against the embedded code.

Modelling conventions:
* Rust `usize`/`u64` values are `Nat`; integer parsing enforces the 64-bit
  bound exactly as `str::parse` does on a 64-bit target.  `i32` values are
  `Int` (the values involved are tiny, so wraparound never occurs).
* Rust `&str` values are worked on as `List Char` (`String.data`), with the
  string-splitting and trimming primitives of `str` re-implemented
  structurally so that every definition evaluates inside the kernel.
* `f32` quantities (usage percentages) are modelled as exact rationals `ℚ`;
  the arithmetic performed on them in the source is a single sum and one
  division, which the rational model reflects operation-for-operation.
* Filesystem reads (`fs::read_to_string`) become an environment function
  `String → Option String` keyed by the exact path the source builds;
  syscalls become an oracle from the issued kernel call to
  `Except String Unit`, whose `String` is the OS error text.
-/

namespace Hexin

/-! ## Rust string primitives used by the parsing utilities -/

/-- Rust `str::split(sep)` for a one-character separator: the list of
(possibly empty) chunks between occurrences of `sep`; the empty string
yields one empty chunk. -/
def splitOnChar (sep : Char) : List Char → List (List Char)
  | [] => [[]]
  | c :: cs =>
      let rest := splitOnChar sep cs
      if c = sep then [] :: rest
      else
        match rest with
        | r :: rs => (c :: r) :: rs
        | [] => [[c]]

/-- Rust `str::trim`: remove leading and trailing whitespace characters. -/
def trimChars (cs : List Char) : List Char :=
  ((cs.dropWhile Char.isWhitespace).reverse.dropWhile Char.isWhitespace).reverse

/-- Largest value of a 64-bit `usize`/`u64`, the bound enforced by
`str::parse` on the target platform. -/
def USIZE_MAX : Nat := 2 ^ 64 - 1

/-- Accumulate decimal digits; fails on any non-digit character. -/
def parseDigits : List Char → Nat → Option Nat
  | [], acc => some acc
  | c :: cs, acc =>
      if c.isDigit then parseDigits cs (acc * 10 + (c.toNat - 48)) else none

/-- Rust `str::parse::<usize>()` (64-bit): an optional leading `+`, then one
or more decimal digits, rejecting the empty string and values above
`USIZE_MAX`. -/
def parseUsize (cs : List Char) : Option Nat :=
  let ds := match cs with
    | '+' :: rest => rest
    | other => other
  match ds with
  | [] => none
  | _ =>
      match parseDigits ds 0 with
      | some n => if n ≤ USIZE_MAX then some n else none
      | none => none

/-- Rust `start..=end` over `usize`: ascending inclusive range, empty when
`start > end`. -/
def rangeInclusive (start stop : Nat) : List Nat :=
  (List.range (stop + 1 - start)).map (fun i => start + i)

/-! ## `parse_cpu_list` and `parse_cache_size` (src/system/cpu_info.rs) -/

/-- The per-token body of the `for part in s.trim().split(',')` loop of
`parse_cpu_list` (the token arrives already trimmed): a token containing
`-` is split on `-` and the first two fields are parsed as the bounds of an
inclusive range (`range.next()?` twice); a nonempty token without `-` is
parsed as a single integer; an empty token contributes nothing. -/
def parseCpuListToken (part : List Char) : Option (List Nat) :=
  if part.contains '-' then
    let fields := splitOnChar '-' part
    match fields[0]? with
    | none => none
    | some a =>
        match fields[1]? with
        | none => none
        | some b =>
            match parseUsize a with
            | none => none
            | some start =>
                match parseUsize b with
                | none => none
                | some stop => some (rangeInclusive start stop)
  else if part ≠ [] then
    match parseUsize part with
    | none => none
    | some n => some [n]
  else
    some []

/-- The token loop of `parse_cpu_list`: tokens are trimmed and processed in
order, results concatenated; the first failing token aborts the whole parse
(the `?` operator). -/
def parseCpuListGo : List (List Char) → Option (List Nat)
  | [] => some []
  | t :: ts =>
      match parseCpuListToken (trimChars t) with
      | none => none
      | some xs =>
          match parseCpuListGo ts with
          | none => none
          | some rest => some (xs ++ rest)

/-- `parse_cpu_list` from src/system/cpu_info.rs: split the trimmed input on
commas and concatenate each token's expansion in input order. -/
def parse_cpu_list (s : String) : Option (List Nat) :=
  parseCpuListGo (splitOnChar ',' (trimChars s.data))

/-- `parse_cache_size` from src/system/cpu_info.rs: trim, uppercase, then
interpret a `K` suffix as KB, an `M` suffix as MB (×1024), otherwise raw KB;
unparsable input yields 0. -/
def parse_cache_size (s : String) : Nat :=
  let cs := (trimChars s.data).map Char.toUpper
  match cs.getLast? with
  | some 'K' => (parseUsize cs.dropLast).getD 0
  | some 'M' => ((parseUsize cs.dropLast).getD 0) * 1024
  | _ => (parseUsize cs).getD 0

/-! ## Data model (src/system/cpu_info.rs) -/

/-- Core classification for Intel hybrid topologies. -/
inductive CoreType
  | Performance
  | Efficiency
  | Unknown
deriving DecidableEq, Repr

/-- CPU vendor derived from `/proc/cpuinfo`. -/
inductive CpuVendor
  | AMD
  | Intel
  | Other
deriving DecidableEq, Repr

/-- `L3CacheInfo`: one L3 cache domain. -/
structure L3CacheInfo where
  id : Nat
  size_kb : Nat
  shared_cpus : List Nat
  is_vcache : Bool
deriving DecidableEq, Repr

/-- `CpuCore`: topology record of one logical CPU. -/
structure CpuCore where
  cpu_id : Nat
  core_id : Nat
  package_id : Nat
  numa_node : Nat
  core_type : CoreType
  cluster_id : Option Nat
  l3_cache_id : Option Nat
  frequency_mhz : Nat
  usage_percent : ℚ
deriving DecidableEq, Repr

/-- `CpuInfo`: the aggregate topology snapshot. -/
structure CpuInfo where
  model_name : String
  vendor : CpuVendor
  physical_cores : Nat
  logical_cores : Nat
  smt_enabled : Bool
  cores : List CpuCore
  l3_caches : List L3CacheInfo
  base_frequency_mhz : Nat
  max_frequency_mhz : Nat
  total_usage_percent : ℚ
deriving DecidableEq, Repr

/-- One entry of `sys.cpus()` as consumed by `CpuInfo::update`: the
live-stats collaborator's usage percentage and frequency for one CPU. -/
structure CpuSample where
  cpu_usage : ℚ
  frequency : Nat
deriving DecidableEq, Repr

/-- `CpuInfo::vcache_cores`: collect the ids of v-cache L3 caches, then the
`cpu_id` of every core whose `l3_cache_id` is among them. -/
def CpuInfo.vcache_cores (info : CpuInfo) : List Nat :=
  let vcache_ids : List Nat := (info.l3_caches.filter (fun c => c.is_vcache)).map (fun c => c.id)
  (info.cores.filter (fun c =>
      match c.l3_cache_id with
      | some id => vcache_ids.contains id
      | none => false)).map (fun c => c.cpu_id)

/-- The `for (i, cpu) in cpus.iter().enumerate()` loop of `CpuInfo::update`:
each core with an index-aligned sample gets that sample's usage and
frequency, and the usages consumed are summed (`total_usage`); samples
beyond `cores.len()` are skipped, cores beyond `cpus.len()` are untouched. -/
def updateCoresLoop : List CpuCore → List CpuSample → List CpuCore × ℚ
  | cores, [] => (cores, 0)
  | [], _ => ([], 0)
  | core :: cores, cpu :: cpus =>
      let rest := updateCoresLoop cores cpus
      ({ core with usage_percent := cpu.cpu_usage, frequency_mhz := cpu.frequency } :: rest.1,
        cpu.cpu_usage + rest.2)

/-- `CpuInfo::update` from src/system/cpu_info.rs: overwrite per-core usage
and frequency from the index-aligned samples and recompute
`total_usage_percent` as `total_usage / cpus.len()` (0 when `cpus` is
empty). -/
def CpuInfo.update (info : CpuInfo) (cpus : List CpuSample) : CpuInfo :=
  let res := updateCoresLoop info.cores cpus
  { info with
    cores := res.1,
    total_usage_percent := if cpus ≠ [] then res.2 / (cpus.length : ℚ) else 0 }

/-- `CpuInfo::grid_columns` (match on inclusive ranges; anything outside
them, including 0, falls to the wildcard arm). -/
def CpuInfo.grid_columns (info : CpuInfo) : Nat :=
  let n := info.logical_cores
  if 1 ≤ n ∧ n ≤ 4 then 2
  else if 5 ≤ n ∧ n ≤ 8 then 4
  else if 9 ≤ n ∧ n ≤ 16 then 4
  else if 17 ≤ n ∧ n ≤ 32 then 8
  else if 33 ≤ n ∧ n ≤ 64 then 8
  else 16

/-! ## Detection environment and `CpuInfo::detect` (src/system/cpu_info.rs)

Every filesystem access of the detection pass is routed through an
explicit environment, keyed by the exact path string the source builds. -/

/-- The ambient system state `detect()` reads. -/
structure SysEnv where
  /-- Result of `System::cpu_arch()`. -/
  cpuArch : Option String
  /-- `sys.cpus().len()` — the live-stats collaborator's CPU count. -/
  sysCpuCount : Nat
  /-- `fs::read_to_string path`, `none` on I/O error. -/
  readFile : String → Option String
  /-- `Path::new(path).exists()`. -/
  pathExists : String → Bool
  /-- File names under `/sys/devices/system/node`, `none` when `read_dir`
  fails. -/
  nodeDirEntries : Option (List String)

/-- Rust `str::split_once(sep)`: split at the first occurrence of `sep`. -/
def splitOnceChar (sep : Char) : List Char → Option (List Char × List Char)
  | [] => none
  | c :: cs =>
      if c = sep then some ([], cs)
      else
        match splitOnceChar sep cs with
        | some (l, r) => some (c :: l, r)
        | none => none

/-- Rust `str::contains(&str)`: substring occurrence test. -/
def containsSubstr (s sub : List Char) : Bool :=
  (List.range (s.length + 1)).any (fun i => sub.isPrefixOf (s.drop i))

/-- `read_cpuinfo`: parse `/proc/cpuinfo` into key/value pairs by splitting
each line at its first `:` and trimming both sides.  (The source stores the
pairs in a `HashMap`, inserting in line order; lines without `:` — and so
the empty chunk a trailing newline produces — contribute nothing.) -/
def read_cpuinfo (env : SysEnv) : List (String × String) :=
  match env.readFile "/proc/cpuinfo" with
  | none => []
  | some content =>
      (splitOnChar '\n' content.data).filterMap (fun line =>
        match splitOnceChar ':' line with
        | some (k, v) => some ((⟨trimChars k⟩ : String), (⟨trimChars v⟩ : String))
        | none => none)

/-- `HashMap::get` on the pairs of `read_cpuinfo`: insertion overwrites, so
the last pair with the given key wins. -/
def mapGet (m : List (String × String)) (key : String) : Option String :=
  (m.reverse.find? (fun kv => kv.1 = key)).map (fun kv => kv.2)

/-- `detect_vendor`: substring-match the `vendor_id` field. -/
def detect_vendor (cpuinfo : List (String × String)) : CpuVendor :=
  match mapGet cpuinfo "vendor_id" with
  | some vendor =>
      if containsSubstr vendor.data "AMD".data then CpuVendor.AMD
      else if containsSubstr vendor.data "Intel".data then CpuVendor.Intel
      else CpuVendor.Other
  | none => CpuVendor.Other

/-- `read_sysfs_value`: read a file, trim, parse as a (64-bit) natural. -/
def read_sysfs_value (env : SysEnv) (path : String) : Option Nat :=
  (env.readFile path).bind (fun s => parseUsize (trimChars s.data))

/-- `detect_physical_cores`: from the sibling count of CPU 0 when the sysfs
list is readable and non-empty; otherwise the SMT-2 fallback
`logical_cores / 2`. -/
def detect_physical_cores (env : SysEnv) (logical_cores : Nat) : Nat :=
  match (env.readFile "/sys/devices/system/cpu/cpu0/topology/core_siblings_list").bind
      (fun content => (parse_cpu_list content).map List.length) with
  | some count =>
      if count > 0 then logical_cores / (max (logical_cores / count) 1)
      else logical_cores / 2
  | none => logical_cores / 2

/-- The entry loop of `detect_numa_node`: first `nodeN` directory whose
`cpulist` parses and contains `cpu_id` wins; otherwise 0. -/
def numaScan (env : SysEnv) (cpu_id : Nat) : List String → Nat
  | [] => 0
  | name :: rest =>
      if "node".data.isPrefixOf name.data then
        match parseUsize (name.data.drop 4) with
        | some node_id =>
            match env.readFile ("/sys/devices/system/node/node" ++ toString node_id ++ "/cpulist") with
            | some content =>
                match parse_cpu_list content with
                | some cpus =>
                    if cpus.contains cpu_id then node_id else numaScan env cpu_id rest
                | none => numaScan env cpu_id rest
            | none => numaScan env cpu_id rest
        | none => numaScan env cpu_id rest
      else numaScan env cpu_id rest

/-- `detect_numa_node`. -/
def detect_numa_node (env : SysEnv) (cpu_id : Nat) : Nat :=
  match env.nodeDirEntries with
  | none => 0
  | some entries => numaScan env cpu_id entries

/-- `detect_intel_core_type`: L2 cache below 1500 KB means Efficiency. -/
def detect_intel_core_type (env : SysEnv) (cpu_id : Nat) : CoreType :=
  match env.readFile ("/sys/devices/system/cpu/cpu" ++ toString cpu_id ++ "/cache/index2/size") with
  | some content =>
      if parse_cache_size content < 1500 then CoreType.Efficiency
      else CoreType.Performance
  | none => CoreType.Performance

/-- `detect_amd_cluster`: the L3 cache id attribute. -/
def detect_amd_cluster (env : SysEnv) (cpu_id : Nat) : Option Nat :=
  read_sysfs_value env ("/sys/devices/system/cpu/cpu" ++ toString cpu_id ++ "/cache/index3/id")

/-- `detect_core_topology`. -/
def detect_core_topology (env : SysEnv) (cpu_id : Nat) (vendor : CpuVendor) : CpuCore :=
  let base_path := "/sys/devices/system/cpu/cpu" ++ toString cpu_id ++ "/topology"
  { cpu_id := cpu_id
    core_id := (read_sysfs_value env (base_path ++ "/core_id")).getD cpu_id
    package_id := (read_sysfs_value env (base_path ++ "/physical_package_id")).getD 0
    numa_node := detect_numa_node env cpu_id
    core_type :=
      if vendor = CpuVendor.Intel then detect_intel_core_type env cpu_id
      else CoreType.Performance
    cluster_id :=
      if vendor = CpuVendor.AMD then detect_amd_cluster env cpu_id else none
    l3_cache_id := none
    frequency_mhz := 0
    usage_percent := 0 }

/-- The per-CPU loop of `detect_l3_caches`, accumulating one record per
distinct cache id (first seen wins). -/
def detectL3Loop (env : SysEnv) : List Nat → List L3CacheInfo → List L3CacheInfo
  | [], caches => caches
  | cpu_id :: rest, caches =>
      let base_path := "/sys/devices/system/cpu/cpu" ++ toString cpu_id ++ "/cache/index3"
      if env.pathExists base_path then
        let id := (read_sysfs_value env (base_path ++ "/id")).getD 0
        if (caches.find? (fun c => c.id = id)).isSome then
          detectL3Loop env rest caches
        else
          let size_kb := parse_cache_size ((env.readFile (base_path ++ "/size")).getD "")
          let shared_cpus := (parse_cpu_list ((env.readFile (base_path ++ "/shared_cpu_list")).getD "")).getD []
          let cache : L3CacheInfo :=
            { id := id
              size_kb := size_kb
              shared_cpus := shared_cpus
              is_vcache := size_kb > 65536 }
          detectL3Loop env rest (caches ++ [cache])
      else detectL3Loop env rest caches

/-- `detect_l3_caches`: collect the distinct cache records, sorted ascending
by id (the source sorts the `HashMap` values, so insertion order is
irrelevant; ids are distinct by construction). -/
def detect_l3_caches (env : SysEnv) (logical_cores : Nat) : List L3CacheInfo :=
  (detectL3Loop env (List.range logical_cores) []).mergeSort (fun a b => a.id ≤ b.id)

/-- `detect_frequency_range`: base (min as fallback) and max cpufreq
attributes of CPU 0, converted kHz→MHz, 0 when unreadable. -/
def detect_frequency_range (env : SysEnv) : Nat × Nat :=
  let base := (((read_sysfs_value env "/sys/devices/system/cpu/cpu0/cpufreq/base_frequency").orElse
      (fun _ => read_sysfs_value env "/sys/devices/system/cpu/cpu0/cpufreq/cpuinfo_min_freq")).map
        (fun f => f / 1000)).getD 0
  let maxFreq := ((read_sysfs_value env "/sys/devices/system/cpu/cpu0/cpufreq/cpuinfo_max_freq").map
      (fun f => f / 1000)).getD 0
  (base, maxFreq)

/-- `CpuInfo::detect`: the one-shot discovery pass of
src/system/cpu_info.rs, with all ambient reads supplied by `env`. -/
def CpuInfo.detect (env : SysEnv) : CpuInfo :=
  let model_name := env.cpuArch.getD "Unknown"
  let cpuinfo := read_cpuinfo env
  let vendor := detect_vendor cpuinfo
  let model := (mapGet cpuinfo "model name").getD model_name
  let logical_cores := env.sysCpuCount
  let physical_cores := detect_physical_cores env logical_cores
  let cores := (List.range logical_cores).map
    (fun cpu_id => detect_core_topology env cpu_id vendor)
  let l3_caches := detect_l3_caches env logical_cores
  let cores := cores.map (fun core =>
      match l3_caches.find? (fun cache => cache.shared_cpus.contains core.cpu_id) with
      | some cache => { core with l3_cache_id := some cache.id }
      | none => core)
  let freqs := detect_frequency_range env
  { model_name := model
    vendor := vendor
    physical_cores := physical_cores
    logical_cores := logical_cores
    smt_enabled := logical_cores > physical_cores
    cores := cores
    l3_caches := l3_caches
    base_frequency_mhz := freqs.1
    max_frequency_mhz := freqs.2
    total_usage_percent := 0 }

/-! ## Scheduling policies (src/system/scheduler.rs) -/

/-- Kernel scheduling-class constant `SCHED_OTHER`. -/
def SCHED_OTHER : Int := 0
/-- Kernel scheduling-class constant `SCHED_FIFO`. -/
def SCHED_FIFO : Int := 1
/-- Kernel scheduling-class constant `SCHED_RR`. -/
def SCHED_RR : Int := 2
/-- Kernel scheduling-class constant `SCHED_BATCH`. -/
def SCHED_BATCH : Int := 3
/-- Kernel scheduling-class constant `SCHED_IDLE`. -/
def SCHED_IDLE : Int := 5

/-- `SchedulePolicy`: the modelled scheduling classes. -/
inductive SchedulePolicy
  | Other
  | Fifo
  | RoundRobin
  | Batch
  | Idle
  | Unknown (raw : Int)
deriving DecidableEq, Repr

/-- `SchedulePolicy::from_raw`: guard-style match against the kernel
constants, anything else preserved in `Unknown`. -/
def SchedulePolicy.from_raw (policy : Int) : SchedulePolicy :=
  if policy = SCHED_OTHER then SchedulePolicy.Other
  else if policy = SCHED_FIFO then SchedulePolicy.Fifo
  else if policy = SCHED_RR then SchedulePolicy.RoundRobin
  else if policy = SCHED_BATCH then SchedulePolicy.Batch
  else if policy = SCHED_IDLE then SchedulePolicy.Idle
  else SchedulePolicy.Unknown policy

/-- `SchedulePolicy::to_raw`. -/
def SchedulePolicy.to_raw : SchedulePolicy → Int
  | SchedulePolicy.Other => SCHED_OTHER
  | SchedulePolicy.Fifo => SCHED_FIFO
  | SchedulePolicy.RoundRobin => SCHED_RR
  | SchedulePolicy.Batch => SCHED_BATCH
  | SchedulePolicy.Idle => SCHED_IDLE
  | SchedulePolicy.Unknown v => v

/-- `SchedulePolicy::is_realtime`: only FIFO and round-robin. -/
def SchedulePolicy.is_realtime : SchedulePolicy → Bool
  | SchedulePolicy.Fifo => true
  | SchedulePolicy.RoundRobin => true
  | _ => false

/-- `SchedulePolicy::all`. -/
def SchedulePolicy.all : List SchedulePolicy :=
  [SchedulePolicy.Other, SchedulePolicy.Batch, SchedulePolicy.Idle,
    SchedulePolicy.Fifo, SchedulePolicy.RoundRobin]

/-- `SchedulePreset` (src/system/scheduler.rs). -/
structure SchedulePreset where
  name : String
  description : String
  policy : SchedulePolicy
  priority : Int
  affinity_cores : Option (List Nat)
deriving DecidableEq, Repr

/-! ## Syscall-backed facade (src/system/scheduler.rs, src/system/process.rs)

Each privileged operation issues exactly one kernel call; the kernel is an
oracle mapping the issued call to success or an OS error string.  The Rust
wrappers are modelled as returning both their `Result` and the call they
issued, so that sequencing claims can speak about the calls actually made. -/

/-- A kernel call issued by the facade. -/
inductive KernCall
  | schedSetScheduler (pid : Int) (rawPolicy : Int) (schedPriority : Int)
  | setpriority (pid : Int) (niceValue : Int)
  | schedSetAffinity (pid : Int) (cores : List Nat)
deriving DecidableEq, Repr

/-- The kernel oracle: the outcome of each possible call. -/
def Kernel := KernCall → Except String Unit

/-- `set_scheduler` from src/system/scheduler.rs: the `sched_param` priority
is the given one only for a realtime policy, else 0; a failing syscall's OS
error is wrapped with a privilege hint. -/
def set_scheduler (k : Kernel) (pid : Int) (policy : SchedulePolicy) (priority : Int) :
    Except String Unit × KernCall :=
  let call := KernCall.schedSetScheduler pid policy.to_raw
    (if policy.is_realtime then priority else 0)
  match k call with
  | Except.ok _ => (Except.ok (), call)
  | Except.error err =>
      (Except.error ("设置调度策略失败: " ++ err ++ " (可能需要 root 权限或 CAP_SYS_NICE)"), call)

/-- `set_process_nice` from src/system/scheduler.rs. -/
def set_process_nice (k : Kernel) (pid : Int) (niceValue : Int) :
    Except String Unit × KernCall :=
  let call := KernCall.setpriority pid niceValue
  match k call with
  | Except.ok _ => (Except.ok (), call)
  | Except.error err => (Except.error ("设置 nice 值失败: " ++ err), call)

/-- `set_process_affinity` from src/system/process.rs. -/
def set_process_affinity (k : Kernel) (pid : Int) (cores : List Nat) :
    Except String Unit × KernCall :=
  let call := KernCall.schedSetAffinity pid cores
  match k call with
  | Except.ok _ => (Except.ok (), call)
  | Except.error err =>
      (Except.error ("设置亲和性失败: " ++ err ++ " (可能需要 root 权限)"), call)

/-- `libc::CPU_SETSIZE`. -/
def CPU_SETSIZE : Nat := 1024

/-- `get_process_affinity` from src/system/process.rs: on a successful
`sched_getaffinity` (modelled as the bitmask membership function), collect
the set CPUs below `min logical_cores CPU_SETSIZE`; on failure, all of
`0..logical_cores`. -/
def get_process_affinity (cpuset : Option (Nat → Bool)) (logical_cores : Nat) : List Nat :=
  match cpuset with
  | some isSet => (List.range (min logical_cores CPU_SETSIZE)).filter isSet
  | none => List.range logical_cores

/-! ## `SchedulerPanel::apply_preset` (src/ui/scheduler.rs) -/

/-- The message state of `SchedulerPanel` that `apply_preset` touches. -/
structure SchedulerPanel where
  error_message : Option String
  success_message : Option String
deriving DecidableEq, Repr

/-- `SchedulerPanel::apply_preset`: set policy+priority; on success, set
niceness when the policy is not realtime and the preset priority is
nonzero (early-returning on failure); then set affinity when
`affinity_cores` is present (early-returning on failure); finally record
success.  The second component is the ordered list of kernel calls
issued. -/
def SchedulerPanel.apply_preset (k : Kernel) (panel : SchedulerPanel) (pid : Int)
    (preset : SchedulePreset) : SchedulerPanel × List KernCall :=
  let priority := if preset.policy.is_realtime then preset.priority else 0
  let s1 := set_scheduler k pid preset.policy priority
  match s1.1 with
  | Except.error e =>
      ({ panel with error_message := some e, success_message := none }, [s1.2])
  | Except.ok _ =>
      if preset.policy.is_realtime = false ∧ preset.priority ≠ 0 then
        let s2 := set_process_nice k pid preset.priority
        match s2.1 with
        | Except.error e =>
            ({ panel with error_message := some ("设置 nice 值失败: " ++ e) }, [s1.2, s2.2])
        | Except.ok _ =>
            match preset.affinity_cores with
            | some cores =>
                let s3 := set_process_affinity k pid cores
                match s3.1 with
                | Except.error e =>
                    ({ panel with error_message := some ("设置亲和性失败: " ++ e) },
                      [s1.2, s2.2, s3.2])
                | Except.ok _ =>
                    ({ panel with
                        success_message := some ("预设 \x27" ++ preset.name ++ "\x27 已应用")
                        error_message := none }, [s1.2, s2.2, s3.2])
            | none =>
                ({ panel with
                    success_message := some ("预设 \x27" ++ preset.name ++ "\x27 已应用")
                    error_message := none }, [s1.2, s2.2])
      else
        match preset.affinity_cores with
        | some cores =>
            let s3 := set_process_affinity k pid cores
            match s3.1 with
            | Except.error e =>
                ({ panel with error_message := some ("设置亲和性失败: " ++ e) }, [s1.2, s3.2])
            | Except.ok _ =>
                ({ panel with
                    success_message := some ("预设 \x27" ++ preset.name ++ "\x27 已应用")
                    error_message := none }, [s1.2, s3.2])
        | none =>
            ({ panel with
                success_message := some ("预设 \x27" ++ preset.name ++ "\x27 已应用")
                error_message := none }, [s1.2])

/-! ## Process manager (src/system/process.rs) -/

/-- `ProcessInfo` (the fields `set_sort`'s sorting reads). -/
structure ProcessInfo where
  pid : Nat
  name : String
  cmd : String
  cpu_usage : ℚ
  memory : Nat
  status : String
  affinity : List Nat
  sched_policy : SchedulePolicy
  priority : Int
deriving DecidableEq, Repr

/-- `SortField`. -/
inductive SortField
  | Pid
  | Name
  | CpuUsage
  | Memory
deriving DecidableEq, Repr

/-- The state of `ProcessManager` relevant to sorting and filtering. -/
structure ProcessManager where
  processes : List ProcessInfo
  logical_cores : Nat
  filter : String
  sort_by : SortField
  sort_desc : Bool
deriving Repr

/-- Rust `String::cmp`: lexicographic comparison of the byte (here: char)
sequences. -/
def stringLe (a b : String) : Bool := a.data ≤ b.data

/-- `ProcessManager::sort`: a stable ascending sort by the active field
(`Vec::sort_by` is stable; the `CpuUsage` comparator treats incomparable
values as equal, which over `ℚ` is plain `≤`), then reverse when
descending. -/
def sortProcesses (processes : List ProcessInfo) (field : SortField) (desc : Bool) :
    List ProcessInfo :=
  let sorted :=
    match field with
    | SortField.Pid => processes.mergeSort (fun a b => a.pid ≤ b.pid)
    | SortField.Name => processes.mergeSort (fun a b => stringLe a.name b.name)
    | SortField.CpuUsage => processes.mergeSort (fun a b => a.cpu_usage ≤ b.cpu_usage)
    | SortField.Memory => processes.mergeSort (fun a b => a.memory ≤ b.memory)
  if desc then sorted.reverse else sorted

/-- `ProcessManager::set_sort`: same field toggles the direction, a new
field becomes active with direction reset to descending; then re-sort. -/
def ProcessManager.set_sort (m : ProcessManager) (field : SortField) : ProcessManager :=
  let m :=
    if m.sort_by = field then { m with sort_desc := !m.sort_desc }
    else { m with sort_by := field, sort_desc := true }
  { m with processes := sortProcesses m.processes m.sort_by m.sort_desc }

/-! ## Spec-side comparands and concrete inputs used by the theorems -/

/-- The trimmed comma-tokens `parse_cpu_list` processes, per the spec's
description of the input format. -/
def cpuListTokens (s : String) : List (List Char) :=
  (splitOnChar ',' (trimChars s.data)).map trimChars

/-- Spec-level well-formedness of one trimmed token under the code's actual
rule: a token containing `-` is accepted when its first two `-`-separated
fields parse as integers (any further fields are ignored); a token without
`-` must be empty or a single integer. -/
def tokenWellFormed (t : List Char) : Bool :=
  if t.contains '-' then
    match (splitOnChar '-' t)[0]?, (splitOnChar '-' t)[1]? with
    | some a, some b => (parseUsize a).isSome && (parseUsize b).isSome
    | _, _ => false
  else
    t.isEmpty || (parseUsize t).isSome

/-- Spec-level expansion of one well-formed trimmed token: a range token
`a-b` expands to the ascending inclusive sequence (empty when `a > b`), an
integer token to itself, an empty token to nothing. -/
def tokenExpansion (t : List Char) : List Nat :=
  if t.contains '-' then
    match (splitOnChar '-' t)[0]?, (splitOnChar '-' t)[1]? with
    | some a, some b => rangeInclusive ((parseUsize a).getD 0) ((parseUsize b).getD 0)
    | _, _ => []
  else if t.isEmpty then []
  else [(parseUsize t).getD 0]

/-- The frame fields of a `CpuCore`: everything except `usage_percent` and
`frequency_mhz`. -/
def coreFrame (c : CpuCore) :
    Nat × Nat × Nat × Nat × CoreType × Option Nat × Option Nat :=
  (c.cpu_id, c.core_id, c.package_id, c.numa_node, c.core_type, c.cluster_id, c.l3_cache_id)

/-- A topology record with every field at its default. -/
def cpuCoreBase : CpuCore :=
  { cpu_id := 0, core_id := 0, package_id := 0, numa_node := 0
    core_type := CoreType.Performance, cluster_id := none, l3_cache_id := none
    frequency_mhz := 0, usage_percent := 0 }

/-- A `CpuInfo` whose single core has no `l3_cache_id` even though its id
appears in the `shared_cpus` of a v-cache L3 record. -/
def infoC3 : CpuInfo :=
  { model_name := "m", vendor := CpuVendor.AMD, physical_cores := 1, logical_cores := 1
    smt_enabled := false, cores := [cpuCoreBase]
    l3_caches := [{ id := 0, size_kb := 98304, shared_cpus := [0], is_vcache := true }]
    base_frequency_mhz := 0, max_frequency_mhz := 0, total_usage_percent := 0 }

/-- A `CpuInfo` with one core at 50% usage. -/
def infoC6 : CpuInfo :=
  { model_name := "m", vendor := CpuVendor.Other, physical_cores := 1, logical_cores := 1
    smt_enabled := false, cores := [{ cpuCoreBase with usage_percent := 50 }]
    l3_caches := [], base_frequency_mhz := 0, max_frequency_mhz := 0
    total_usage_percent := 0 }

/-- A concrete `CpuInfo` for exercising the update frame theorem. -/
def infoW : CpuInfo :=
  { model_name := "m", vendor := CpuVendor.Intel, physical_cores := 1, logical_cores := 2
    smt_enabled := true
    cores := [cpuCoreBase, { cpuCoreBase with cpu_id := 1, core_id := 1 }]
    l3_caches := [], base_frequency_mhz := 100, max_frequency_mhz := 200
    total_usage_percent := 0 }

/-- A concrete live-stats sample list for the update theorems. -/
def cpusW : List CpuSample :=
  [{ cpu_usage := 10, frequency := 1000 }, { cpu_usage := 30, frequency := 2000 }]

/-- A concrete environment on which every filesystem access fails. -/
def envW : SysEnv :=
  { cpuArch := none, sysCpuCount := 1, readFile := fun _ => none
    pathExists := fun _ => false, nodeDirEntries := none }

/-- A concrete process manager state sorting by CPU usage descending. -/
def pmW : ProcessManager :=
  { processes := [], logical_cores := 4, filter := ""
    sort_by := SortField.CpuUsage, sort_desc := true }

/-- The `sched_setscheduler` call `apply_preset` issues for a preset. -/
def presetSchedCall (pid : Int) (preset : SchedulePreset) : KernCall :=
  KernCall.schedSetScheduler pid preset.policy.to_raw
    (if preset.policy.is_realtime then preset.priority else 0)

/-- The condition under which `apply_preset` performs the niceness step. -/
def presetNiceApplies (preset : SchedulePreset) : Prop :=
  preset.policy.is_realtime = false ∧ preset.priority ≠ 0

instance (preset : SchedulePreset) : Decidable (presetNiceApplies preset) :=
  inferInstanceAs (Decidable (And _ _))

/-- The `setpriority` call `apply_preset` issues for a preset. -/
def presetNiceCall (pid : Int) (preset : SchedulePreset) : KernCall :=
  KernCall.setpriority pid preset.priority

/-- A kernel oracle whose affinity call fails with `EPERM` and whose other
calls succeed. -/
def kernelAffFails : Kernel :=
  fun c =>
    match c with
    | KernCall.schedSetAffinity _ _ => Except.error "EPERM"
    | _ => Except.ok ()

/-- A concrete non-realtime preset with a nonzero priority and an affinity
list. -/
def presetW : SchedulePreset :=
  { name := "w", description := "", policy := SchedulePolicy.Other
    priority := -10, affinity_cores := some [0, 1] }

/-- A blank panel message state. -/
def panelW : SchedulerPanel := { error_message := none, success_message := none }

/-! ## Theorems -/

/-- C4: every variant returned by `SchedulePolicy::all` round-trips through
`to_raw` and `from_raw`; any raw value outside the mapped kernel constants
{0,1,2,3,5} maps to `Unknown raw`, and `to_raw` on `Unknown raw` returns
`raw` unchanged. -/
theorem schedulePolicy_from_to_raw_roundtrip :
    (∀ v, v ∈ SchedulePolicy.all → SchedulePolicy.from_raw v.to_raw = v) ∧
    (∀ r : Int, r ∉ ([0, 1, 2, 3, 5] : List Int) →
      SchedulePolicy.from_raw r = SchedulePolicy.Unknown r ∧
      (SchedulePolicy.Unknown r).to_raw = r) := by
  constructor
  · intro v hv
    simp only [SchedulePolicy.all, List.mem_cons, List.not_mem_nil, or_false] at hv
    rcases hv with rfl | rfl | rfl | rfl | rfl <;> rfl
  · intro r hr
    simp only [List.mem_cons, List.not_mem_nil, or_false, not_or] at hr
    obtain ⟨h0, h1, h2, h3, h5⟩ := hr
    refine ⟨?_, rfl⟩
    simp [SchedulePolicy.from_raw, SCHED_OTHER, SCHED_FIFO, SCHED_RR, SCHED_BATCH,
      SCHED_IDLE, h0, h1, h2, h3, h5]

/-- C4 witness: the round trip at `Other` and at the unmapped raw value 7. -/
theorem schedulePolicy_from_to_raw_roundtrip_witness :
    SchedulePolicy.from_raw (SchedulePolicy.Other.to_raw) = SchedulePolicy.Other ∧
    SchedulePolicy.from_raw 7 = SchedulePolicy.Unknown 7 ∧
    (SchedulePolicy.Unknown 7).to_raw = 7 :=
  ⟨schedulePolicy_from_to_raw_roundtrip.1 SchedulePolicy.Other (by decide),
    (schedulePolicy_from_to_raw_roundtrip.2 7 (by decide)).1,
    (schedulePolicy_from_to_raw_roundtrip.2 7 (by decide)).2⟩

/-- C7: `set_sort` with the active field keeps the field and toggles the
direction; with a different field it activates that field and resets the
direction to descending. -/
theorem set_sort_toggle_reset (m : ProcessManager) (field : SortField) :
    (m.sort_by = field →
      (m.set_sort field).sort_by = field ∧
      (m.set_sort field).sort_desc = !m.sort_desc) ∧
    (m.sort_by ≠ field →
      (m.set_sort field).sort_by = field ∧
      (m.set_sort field).sort_desc = true) := by
  constructor
  · intro h
    simp [ProcessManager.set_sort, h]
  · intro h
    simp [ProcessManager.set_sort, h]

/-- C7 witness: toggling the active `CpuUsage` field and switching to
`Pid` on a concrete manager state. -/
theorem set_sort_toggle_reset_witness :
    (pmW.set_sort SortField.CpuUsage).sort_by = SortField.CpuUsage ∧
    (pmW.set_sort SortField.CpuUsage).sort_desc = !pmW.sort_desc ∧
    (pmW.set_sort SortField.Pid).sort_by = SortField.Pid ∧
    (pmW.set_sort SortField.Pid).sort_desc = true :=
  ⟨((set_sort_toggle_reset pmW SortField.CpuUsage).1 rfl).1,
    ((set_sort_toggle_reset pmW SortField.CpuUsage).1 rfl).2,
    ((set_sort_toggle_reset pmW SortField.Pid).2 (by decide)).1,
    ((set_sort_toggle_reset pmW SortField.Pid).2 (by decide)).2⟩

/-- C8: every cpu id `get_process_affinity` returns is below
`logical_cores`, and when the affinity syscall fails the result is exactly
`0..logical_cores`. -/
theorem get_process_affinity_bounded (cpuset : Option (Nat → Bool)) (logical_cores : Nat) :
    (∀ c ∈ get_process_affinity cpuset logical_cores, c < logical_cores) ∧
    (cpuset = none →
      get_process_affinity cpuset logical_cores = List.range logical_cores) := by
  constructor
  · intro c hc
    cases cpuset with
    | none =>
        simp only [get_process_affinity] at hc
        exact List.mem_range.mp hc
    | some isSet =>
        simp only [get_process_affinity, List.mem_filter, List.mem_range] at hc
        exact lt_of_lt_of_le hc.1 (min_le_left _ _)
  · intro h
    subst h
    rfl

/-- C8 witness: a concrete successful bitmask and a concrete failure. -/
theorem get_process_affinity_bounded_witness :
    (2 : Nat) < 4 ∧ get_process_affinity none 4 = List.range 4 :=
  ⟨(get_process_affinity_bounded (some (fun i => decide (i % 2 = 0))) 4).1 2 (by decide),
    (get_process_affinity_bounded none 4).2 rfl⟩

/-- C9: `parse_cpu_list` skips empty tokens: the empty string and any
whitespace-only input parse to `some []`, and `"0,,2"` parses to
`some [0, 2]`. -/
theorem parse_cpu_list_empty_tokens :
    parse_cpu_list "" = some [] ∧
    (∀ s : String, s.data.all Char.isWhitespace → parse_cpu_list s = some []) ∧
    parse_cpu_list "0,,2" = some [0, 2] := by
  refine ⟨by decide, ?_, by decide⟩
  intro s hs
  have hd : s.data.dropWhile Char.isWhitespace = [] := by
    rw [List.dropWhile_eq_nil_iff]
    intro x hx
    exact List.all_eq_true.mp hs x hx
  have ht : trimChars s.data = [] := by
    simp [trimChars, hd]
  show parseCpuListGo (splitOnChar ',' (trimChars s.data)) = some []
  rw [ht]
  rfl

/-- C9 witness: a concrete whitespace-only input. -/
theorem parse_cpu_list_empty_tokens_witness :
    parse_cpu_list " \t " = some [] :=
  parse_cpu_list_empty_tokens.2.1 " \t " (by decide)

/-- C10: when the core-siblings sysfs list is unreadable,
`detect_physical_cores` on one logical core returns 1/2 = 0, and the
`CpuInfo` built by `detect` then reports `physical_cores = 0` and
`smt_enabled = true`. -/
theorem detect_single_cpu_smt_fallback (env : SysEnv)
    (hread : env.readFile "/sys/devices/system/cpu/cpu0/topology/core_siblings_list" = none)
    (hcount : env.sysCpuCount = 1) :
    detect_physical_cores env 1 = 0 ∧
    (CpuInfo.detect env).physical_cores = 0 ∧
    (CpuInfo.detect env).smt_enabled = true := by
  have h1 : detect_physical_cores env 1 = 0 := by
    simp [detect_physical_cores, hread]
  refine ⟨h1, ?_, ?_⟩ <;>
    simp [CpuInfo.detect, hcount, h1]

/-- C10 witness: the concrete all-reads-fail environment with one CPU. -/
theorem detect_single_cpu_smt_fallback_witness :
    detect_physical_cores envW 1 = 0 ∧
    (CpuInfo.detect envW).physical_cores = 0 ∧
    (CpuInfo.detect envW).smt_enabled = true :=
  detect_single_cpu_smt_fallback envW rfl rfl

/-- Helper: the token body of `parse_cpu_list` is exactly the spec-side
well-formedness test followed by the spec-side expansion. -/
theorem parseCpuListToken_eq (t : List Char) :
    parseCpuListToken t =
      if tokenWellFormed t then some (tokenExpansion t) else none := by
  unfold parseCpuListToken tokenWellFormed tokenExpansion
  by_cases hc : t.contains '-'
  · simp only [hc, if_true]
    rcases h0 : (splitOnChar '-' t)[0]? with _ | a
    · simp
    · rcases h1 : (splitOnChar '-' t)[1]? with _ | b
      · simp
      · rcases ha : parseUsize a with _ | x
        · simp [ha]
        · rcases hb : parseUsize b with _ | y
          · simp [ha, hb]
          · simp [ha, hb]
  · simp only [hc, if_false, Bool.false_eq_true]
    by_cases he : t = []
    · subst he
      simp
    · simp only [he, if_false, List.isEmpty_eq_true, ne_eq, not_false_iff, if_true]
      rcases hp : parseUsize t with _ | x
      · simp [he, hp]
      · simp [he, hp]

/-- Helper: the token loop of `parse_cpu_list` succeeds exactly when every
trimmed token is well-formed, and then returns the concatenation of the
spec-side expansions. -/
theorem parseCpuListGo_eq (ts : List (List Char)) :
    parseCpuListGo ts =
      if (ts.map trimChars).all tokenWellFormed
      then some (((ts.map trimChars).map tokenExpansion).flatten)
      else none := by
  induction ts with
  | nil => rfl
  | cons t ts ih =>
      simp only [parseCpuListGo, parseCpuListToken_eq (trimChars t), ih,
        List.map_cons, List.all_cons, List.flatten_cons]
      by_cases h : tokenWellFormed (trimChars t) <;>
        by_cases h2 : (ts.map trimChars).all tokenWellFormed <;>
          simp [h, h2]

/-- C2 counterexample: the token `1-2-3` is neither a single integer nor a
well-formed `start-end` range, yet `parse_cpu_list` accepts it (only the
first two `-`-separated fields are consulted) instead of returning
`none`. -/
theorem parse_cpu_list_malformed_token_cex :
    parse_cpu_list "1-2-3" = some [1, 2] := by decide

/-- C2 (amended): `parse_cpu_list` returns `none` exactly when some trimmed
comma-token fails the code's token rule (a `-`-token must have its first
two `-`-separated fields parse as integers, extra fields being ignored; a
token without `-` must be empty or a single integer), and otherwise
returns the in-order concatenation of the tokens' expansions, where an
integer yields itself, a range `a-b` with `a ≤ b` the ascending inclusive
sequence (empty when `a > b`), and an empty token nothing. -/
theorem parse_cpu_list_token_characterization (s : String) :
    (parse_cpu_list s = none ↔ ∃ t ∈ cpuListTokens s, tokenWellFormed t = false) ∧
    ((∀ t ∈ cpuListTokens s, tokenWellFormed t = true) →
      parse_cpu_list s = some (((cpuListTokens s).map tokenExpansion).flatten)) := by
  have hgo := parseCpuListGo_eq (splitOnChar ',' (trimChars s.data))
  have htok : (splitOnChar ',' (trimChars s.data)).map trimChars = cpuListTokens s := rfl
  rw [htok] at hgo
  constructor
  · rw [show parse_cpu_list s = parseCpuListGo (splitOnChar ',' (trimChars s.data)) from rfl, hgo]
    by_cases h : (cpuListTokens s).all tokenWellFormed
    · simp only [h, if_true]
      constructor
      · intro hcontra
        exact absurd hcontra (by simp)
      · rintro ⟨t, ht, hbad⟩
        have := List.all_eq_true.mp h t ht
        rw [this] at hbad
        exact absurd hbad (by simp)
    · simp only [h, if_false]
      constructor
      · intro _
        simp only [List.all_eq_true] at h
        push_neg at h
        obtain ⟨t, ht, hbad⟩ := h
        exact ⟨t, ht, by simpa using hbad⟩
      · intro _
        rfl
  · intro hall
    rw [show parse_cpu_list s = parseCpuListGo (splitOnChar ',' (trimChars s.data)) from rfl, hgo]
    have h : (cpuListTokens s).all tokenWellFormed = true :=
      List.all_eq_true.mpr hall
    simp [h]

/-- C2 witness: a concrete well-formed mixed input. -/
theorem parse_cpu_list_token_characterization_witness :
    parse_cpu_list "0-1,4" = some [0, 1, 4] :=
  (parse_cpu_list_token_characterization "0-1,4").2 (by decide)

/-- C3 counterexample: on `infoC3`, cpu 0 appears in the `shared_cpus` of a
v-cache L3 record, yet `vcache_cores` misses it because the core's
`l3_cache_id` is `none` — so the result is not the union of the
`shared_cpus` of the v-cache caches. -/
theorem vcache_cores_union_cex :
    ¬ (∀ x : Nat, x ∈ infoC3.vcache_cores ↔
        ∃ c ∈ infoC3.l3_caches, c.is_vcache = true ∧ x ∈ c.shared_cpus) := by
  intro h
  have h0 : (0 : Nat) ∈ infoC3.vcache_cores := (h 0).mpr (by decide)
  exact absurd h0 (by decide)

/-- C3 (amended): `vcache_cores` returns exactly the list of cpu ids, in
core order with one entry per qualifying core, of the cores whose assigned
`l3_cache_id` is the id of an L3 cache flagged `is_vcache`; a cpu merely
listed in a v-cache's `shared_cpus` but not linked through `l3_cache_id`
is not included. -/
theorem vcache_cores_assigned_in_core_order (info : CpuInfo) :
    info.vcache_cores =
      (info.cores.filter (fun core =>
        decide (∃ cache ∈ info.l3_caches, cache.is_vcache = true ∧
          core.l3_cache_id = some cache.id))).map (fun core => core.cpu_id) := by
  unfold CpuInfo.vcache_cores
  dsimp only
  congr 1
  apply List.filter_congr
  intro core _
  rcases hid : core.l3_cache_id with _ | id
  · simp [hid]
  · simp only [hid]
    rw [Bool.eq_iff_iff]
    simp only [List.contains_iff_exists_mem_beq, List.mem_map, List.mem_filter,
      decide_eq_true_eq, beq_iff_eq, Option.some.injEq]
    constructor
    · rintro ⟨y, ⟨cache, ⟨hc, hv⟩, hcy⟩, hidy⟩
      exact ⟨cache, hc, hv, by rw [hidy, hcy]⟩
    · rintro ⟨cache, hc, hv, hideq⟩
      exact ⟨cache.id, ⟨cache, ⟨hc, hv⟩, rfl⟩, hideq⟩

/-- Helper: the update loop preserves the number of cores. -/
theorem updateCoresLoop_length : ∀ (cores : List CpuCore) (cpus : List CpuSample),
    ((updateCoresLoop cores cpus).1).length = cores.length
  | _, [] => by simp [updateCoresLoop]
  | [], _ :: _ => by simp [updateCoresLoop]
  | _ :: cores, _ :: cpus => by
      simp [updateCoresLoop, updateCoresLoop_length cores cpus]

/-- Helper: the update loop leaves every frame field of every core
unchanged. -/
theorem updateCoresLoop_frame : ∀ (cores : List CpuCore) (cpus : List CpuSample) (i : Nat),
    (((updateCoresLoop cores cpus).1)[i]?).map coreFrame = (cores[i]?).map coreFrame
  | _, [], _ => by simp [updateCoresLoop]
  | [], _ :: _, _ => by simp [updateCoresLoop]
  | _ :: _, _ :: _, 0 => by simp [updateCoresLoop, coreFrame]
  | _ :: cores, _ :: cpus, i + 1 => by
      simpa [updateCoresLoop] using updateCoresLoop_frame cores cpus i

/-- Helper: for indices with a sample, the update loop installs the
sample's usage and frequency. -/
theorem updateCoresLoop_usage : ∀ (cores : List CpuCore) (cpus : List CpuSample) (i : Nat),
    i < cpus.length → i < cores.length →
    (((updateCoresLoop cores cpus).1)[i]?).map CpuCore.usage_percent =
      (cpus[i]?).map CpuSample.cpu_usage ∧
    (((updateCoresLoop cores cpus).1)[i]?).map CpuCore.frequency_mhz =
      (cpus[i]?).map CpuSample.frequency
  | _, [], _, h1, _ => by simp at h1
  | [], _ :: _, _, _, h2 => by simp at h2
  | _ :: _, _ :: _, 0, _, _ => by simp [updateCoresLoop]
  | _ :: cores, _ :: cpus, i + 1, h1, h2 => by
      simpa [updateCoresLoop] using
        updateCoresLoop_usage cores cpus i (by simpa using h1) (by simpa using h2)

/-- Helper: cores beyond the sample list are returned unchanged. -/
theorem updateCoresLoop_untouched : ∀ (cores : List CpuCore) (cpus : List CpuSample) (i : Nat),
    cpus.length ≤ i → ((updateCoresLoop cores cpus).1)[i]? = cores[i]?
  | _, [], _, _ => by simp [updateCoresLoop]
  | [], _ :: _, _, _ => by simp [updateCoresLoop]
  | _ :: _, _ :: _, 0, h => by simp at h
  | _ :: cores, _ :: cpus, i + 1, h => by
      simpa [updateCoresLoop] using
        updateCoresLoop_untouched cores cpus i (by simpa using h)

/-- Helper: with exactly as many samples as cores, the updated usage
sequence is the sample usage sequence. -/
theorem updateCoresLoop_usages_eq : ∀ (cores : List CpuCore) (cpus : List CpuSample),
    cpus.length = cores.length →
    ((updateCoresLoop cores cpus).1).map CpuCore.usage_percent =
      cpus.map CpuSample.cpu_usage
  | cores, [], h => by
      have hc : cores = [] := by
        cases cores with
        | nil => rfl
        | cons a l => simp at h
      subst hc
      rfl
  | [], _ :: _, h => by simp at h
  | _ :: cores, _ :: cpus, h => by
      simp [updateCoresLoop, updateCoresLoop_usages_eq cores cpus (by simpa using h)]

/-- Helper: with exactly as many samples as cores, the accumulated total is
the sum of all sample usages. -/
theorem updateCoresLoop_total : ∀ (cores : List CpuCore) (cpus : List CpuSample),
    cpus.length = cores.length →
    (updateCoresLoop cores cpus).2 = (cpus.map CpuSample.cpu_usage).sum
  | _, [], _ => by simp [updateCoresLoop]
  | [], _ :: _, h => by simp at h
  | _ :: cores, _ :: cpus, h => by
      simp [updateCoresLoop, updateCoresLoop_total cores cpus (by simpa using h)]

/-- C5: `update` mutates only `usage_percent` and `frequency_mhz` of each
core (index-aligned with the samples) and `total_usage_percent`; every
other field of `CpuInfo` and of every core is unchanged, and cores with no
index-aligned sample are untouched entirely. -/
theorem cpuinfo_update_frame (info : CpuInfo) (cpus : List CpuSample) :
    (info.update cpus).model_name = info.model_name ∧
    (info.update cpus).vendor = info.vendor ∧
    (info.update cpus).physical_cores = info.physical_cores ∧
    (info.update cpus).logical_cores = info.logical_cores ∧
    (info.update cpus).smt_enabled = info.smt_enabled ∧
    (info.update cpus).l3_caches = info.l3_caches ∧
    (info.update cpus).base_frequency_mhz = info.base_frequency_mhz ∧
    (info.update cpus).max_frequency_mhz = info.max_frequency_mhz ∧
    ((info.update cpus).cores).length = info.cores.length ∧
    (∀ i : Nat, (((info.update cpus).cores)[i]?).map coreFrame =
      (info.cores[i]?).map coreFrame) ∧
    (∀ i : Nat, i < cpus.length → i < info.cores.length →
      (((info.update cpus).cores)[i]?).map CpuCore.usage_percent =
        (cpus[i]?).map CpuSample.cpu_usage ∧
      (((info.update cpus).cores)[i]?).map CpuCore.frequency_mhz =
        (cpus[i]?).map CpuSample.frequency) ∧
    (∀ i : Nat, cpus.length ≤ i → ((info.update cpus).cores)[i]? = info.cores[i]?) :=
  ⟨rfl, rfl, rfl, rfl, rfl, rfl, rfl, rfl,
    updateCoresLoop_length info.cores cpus,
    fun i => updateCoresLoop_frame info.cores cpus i,
    fun i h1 h2 => updateCoresLoop_usage info.cores cpus i h1 h2,
    fun i h => updateCoresLoop_untouched info.cores cpus i h⟩

/-- C5 witness: the frame and mutation facts at concrete indices of a
concrete update. -/
theorem cpuinfo_update_frame_witness :
    ((infoW.update cpusW).cores[0]?).map coreFrame = (infoW.cores[0]?).map coreFrame ∧
    ((infoW.update cpusW).cores[0]?).map CpuCore.usage_percent =
      (cpusW[0]?).map CpuSample.cpu_usage ∧
    (infoW.update cpusW).cores[2]? = infoW.cores[2]? := by
  obtain ⟨-, -, -, -, -, -, -, -, -, hframe, hupd, huntouched⟩ :=
    cpuinfo_update_frame infoW cpusW
  exact ⟨hframe 0, (hupd 0 (by decide) (by decide)).1, huntouched 2 (by decide)⟩

/-- C6 counterexample: updating a `CpuInfo` that has one core at 50% usage
with an empty sample list sets `total_usage_percent` to 0, which is not
the arithmetic mean (50) of the per-core usage percentages, although there
is a logical core. -/
theorem update_total_mean_cex :
    ¬ ((infoC6.update []).total_usage_percent =
        (((infoC6.update []).cores.map CpuCore.usage_percent).sum) /
          (((infoC6.update []).cores.length : ℚ))) := by
  have h1 : (infoC6.update []).total_usage_percent = 0 := rfl
  have h2 : (infoC6.update []).cores.map CpuCore.usage_percent = [50] := rfl
  have h3 : (infoC6.update []).cores.length = 1 := rfl
  rw [h1, h2, h3]
  norm_num

/-- C6 (amended): when the live-stats input lists exactly as many CPUs as
the `CpuInfo` has cores, `total_usage_percent` after `update` equals the
arithmetic mean of the per-core usage percentages; when the input lists no
CPUs it is 0. -/
theorem update_total_mean (info : CpuInfo) (cpus : List CpuSample) :
    (cpus.length = info.cores.length →
      (info.update cpus).total_usage_percent =
        (((info.update cpus).cores.map CpuCore.usage_percent).sum) /
          (((info.update cpus).cores.length : ℚ))) ∧
    (cpus = [] → (info.update cpus).total_usage_percent = 0) := by
  constructor
  · intro h
    rcases Decidable.em (cpus = []) with hnil | hne
    · subst hnil
      have hc : info.cores = [] := by
        cases hcc : info.cores with
        | nil => rfl
        | cons a l => rw [hcc] at h; simp at h
      simp [CpuInfo.update, updateCoresLoop, hc]
    · have htot := updateCoresLoop_total info.cores cpus h
      have husage := updateCoresLoop_usages_eq info.cores cpus h
      have hlen := updateCoresLoop_length info.cores cpus
      show (if cpus ≠ [] then (updateCoresLoop info.cores cpus).2 / ((cpus.length : ℚ)) else 0) =
        ((((updateCoresLoop info.cores cpus).1).map CpuCore.usage_percent).sum) /
          ((((updateCoresLoop info.cores cpus).1).length : ℚ))
      rw [if_pos hne, htot, husage, hlen, ← h]
  · intro hnil
    subst hnil
    simp [CpuInfo.update]

/-- C6 witness: a concrete aligned update and a concrete empty input. -/
theorem update_total_mean_witness :
    (infoW.update cpusW).total_usage_percent =
      (((infoW.update cpusW).cores.map CpuCore.usage_percent).sum) /
        (((infoW.update cpusW).cores.length : ℚ)) ∧
    (infoW.update []).total_usage_percent = 0 :=
  ⟨(update_total_mean infoW cpusW).1 (by decide), (update_total_mean infoW []).2 rfl⟩

/-- C1: `apply_preset` issues the scheduler call (with the preset priority
when realtime, else 0); only on its success and only when the policy is
not realtime and the preset priority is nonzero the niceness call; only
after that (and its success) the affinity call when `affinity_cores` is
present.  At the first failing step the function stops: no later call is
issued, the earlier calls remain the only ones made (no compensation), and
the recorded error message is built from exactly that step's error
string. -/
theorem apply_preset_first_failure (k : Kernel) (panel : SchedulerPanel) (pid : Int)
    (preset : SchedulePreset) :
    (∀ e, k (presetSchedCall pid preset) = Except.error e →
      SchedulerPanel.apply_preset k panel pid preset =
        ({ panel with
            error_message :=
              some ("设置调度策略失败: " ++ e ++ " (可能需要 root 权限或 CAP_SYS_NICE)")
            success_message := none }, [presetSchedCall pid preset])) ∧
    (k (presetSchedCall pid preset) = Except.ok () →
      presetNiceApplies preset →
      ∀ e, k (presetNiceCall pid preset) = Except.error e →
        SchedulerPanel.apply_preset k panel pid preset =
          ({ panel with
              error_message := some ("设置 nice 值失败: " ++ ("设置 nice 值失败: " ++ e)) },
            [presetSchedCall pid preset, presetNiceCall pid preset])) ∧
    (k (presetSchedCall pid preset) = Except.ok () →
      (presetNiceApplies preset → k (presetNiceCall pid preset) = Except.ok ()) →
      ∀ cores, preset.affinity_cores = some cores →
      ∀ e, k (KernCall.schedSetAffinity pid cores) = Except.error e →
        SchedulerPanel.apply_preset k panel pid preset =
          ({ panel with
              error_message :=
                some ("设置亲和性失败: " ++
                  ("设置亲和性失败: " ++ e ++ " (可能需要 root 权限)")) },
            [presetSchedCall pid preset] ++
              (if presetNiceApplies preset then [presetNiceCall pid preset] else []) ++
              [KernCall.schedSetAffinity pid cores])) ∧
    (k (presetSchedCall pid preset) = Except.ok () →
      (presetNiceApplies preset → k (presetNiceCall pid preset) = Except.ok ()) →
      (∀ cores, preset.affinity_cores = some cores →
        k (KernCall.schedSetAffinity pid cores) = Except.ok ()) →
      SchedulerPanel.apply_preset k panel pid preset =
        ({ panel with
            success_message := some ("预设 \x27" ++ preset.name ++ "\x27 已应用")
            error_message := none },
          [presetSchedCall pid preset] ++
            (if presetNiceApplies preset then [presetNiceCall pid preset] else []) ++
            (match preset.affinity_cores with
              | some cores => [KernCall.schedSetAffinity pid cores]
              | none => []))) := by
  refine ⟨?_, ?_, ?_, ?_⟩
  · intro e hke
    cases hrt : preset.policy.is_realtime <;>
      simp [presetSchedCall, hrt] at hke <;>
      simp [SchedulerPanel.apply_preset, set_scheduler, presetSchedCall, hrt, hke]
  · intro hk1 hna e hk2
    obtain ⟨hrt, hpz⟩ := hna
    simp [presetSchedCall, hrt] at hk1
    simp [presetNiceCall] at hk2
    simp [SchedulerPanel.apply_preset, set_scheduler, set_process_nice, hrt, hpz,
      hk1, hk2, presetSchedCall, presetNiceCall]
  · intro hk1 hk2 cores hcores e hk3
    cases hrt : preset.policy.is_realtime
    · simp [presetSchedCall, hrt] at hk1
      by_cases hpz : preset.priority = 0
      · simp [SchedulerPanel.apply_preset, set_scheduler, set_process_affinity, hrt,
          hpz, hk1, hcores, hk3, presetSchedCall, presetNiceApplies]
      · have hk2v := hk2 ⟨hrt, hpz⟩
        simp [presetNiceCall] at hk2v
        simp [SchedulerPanel.apply_preset, set_scheduler, set_process_nice,
          set_process_affinity, hrt, hpz, hk1, hk2v, hcores, hk3, presetSchedCall,
          presetNiceCall, presetNiceApplies]
    · simp [presetSchedCall, hrt] at hk1
      simp [SchedulerPanel.apply_preset, set_scheduler, set_process_affinity, hrt,
        hk1, hcores, hk3, presetSchedCall, presetNiceApplies]
  · intro hk1 hk2 hk3
    cases hrt : preset.policy.is_realtime
    · simp [presetSchedCall, hrt] at hk1
      by_cases hpz : preset.priority = 0
      · rcases hac : preset.affinity_cores with _ | cores
        · simp [SchedulerPanel.apply_preset, set_scheduler, hrt, hpz, hk1, hac,
            presetSchedCall, presetNiceApplies]
        · have hk3v := hk3 cores hac
          simp [SchedulerPanel.apply_preset, set_scheduler, set_process_affinity, hrt,
            hpz, hk1, hac, hk3v, presetSchedCall, presetNiceApplies]
      · have hk2v := hk2 ⟨hrt, hpz⟩
        simp [presetNiceCall] at hk2v
        rcases hac : preset.affinity_cores with _ | cores
        · simp [SchedulerPanel.apply_preset, set_scheduler, set_process_nice, hrt,
            hpz, hk1, hk2v, hac, presetSchedCall, presetNiceCall, presetNiceApplies]
        · have hk3v := hk3 cores hac
          simp [SchedulerPanel.apply_preset, set_scheduler, set_process_nice,
            set_process_affinity, hrt, hpz, hk1, hk2v, hac, hk3v, presetSchedCall,
            presetNiceCall, presetNiceApplies]
    · simp [presetSchedCall, hrt] at hk1
      rcases hac : preset.affinity_cores with _ | cores
      · simp [SchedulerPanel.apply_preset, set_scheduler, hrt, hk1, hac,
          presetSchedCall, presetNiceApplies]
      · have hk3v := hk3 cores hac
        simp [SchedulerPanel.apply_preset, set_scheduler, set_process_affinity, hrt,
          hk1, hac, hk3v, presetSchedCall, presetNiceApplies]

/-- C1 witness: on a concrete non-realtime preset with nonzero priority and
an affinity list, against a kernel whose affinity call fails with `EPERM`,
the scheduler and niceness calls are made, the affinity failure stops the
sequence, and its error is the one reported. -/
theorem apply_preset_first_failure_witness :
    SchedulerPanel.apply_preset kernelAffFails panelW 42 presetW =
      ({ panelW with
          error_message :=
            some ("设置亲和性失败: " ++ ("设置亲和性失败: " ++ "EPERM" ++ " (可能需要 root 权限)")) },
        [presetSchedCall 42 presetW] ++
          (if presetNiceApplies presetW then [presetNiceCall 42 presetW] else []) ++
          [KernCall.schedSetAffinity 42 [0, 1]]) :=
  (apply_preset_first_failure kernelAffFails panelW 42 presetW).2.2.1 rfl
    (fun _ => rfl) [0, 1] rfl "EPERM" rfl

end Hexin
